import Mathlib

/-!
Verification development for the stardom-os habit/goal tracker
(`src/scripts.js`).  The JavaScript source is shallowly embedded into Lean:
JS numbers become `ℚ` (no NaN arises in the embedded fragments except where
noted, and there it is modelled by `Option`), JS `Math.round` becomes
`jsRound`, the `localStorage` key-value store becomes association lists, and
each embedded function follows the corresponding source function
line by line.  Definitions whose name ends in `Claimed` or `Spec` instead
follow the words of the specification/claims and exist only to be compared
with the source-derived definitions.
-/

/-- JS `Math.round`: round half towards positive infinity,
`Math.round(x) = ⌊x + 0.5⌋`. -/
def jsRound (q : ℚ) : ℤ := ⌊q + 1/2⌋

/-- First-match lookup in an association list (JS object property read;
parsed JSON objects and `localStorage` have unique keys, so first-match
agrees with JS semantics). -/
def lookupK {κ β : Type} [DecidableEq κ] : List (κ × β) → κ → Option β
  | [], _ => none
  | (k, v) :: rest, key => if k = key then some v else lookupK rest key

/-- Replace the first binding of `key`, or append a new binding at the end
(JS object property write / `localStorage.setItem`: updating an existing
key keeps its position, a new key is appended). -/
def setK {κ β : Type} [DecidableEq κ] : List (κ × β) → κ → β → List (κ × β)
  | [], key, v => [(key, v)]
  | (k, w) :: rest, key, v =>
      if k = key then (k, v) :: rest else (k, w) :: setK rest key v

/-- Apply `f` to the first element satisfying `p` (JS
`array.find(...)` followed by an in-place mutation of the found element). -/
def updateFirst {α : Type} (p : α → Bool) (f : α → α) : List α → List α
  | [] => []
  | x :: xs => if p x then f x :: xs else x :: updateFirst p f xs

/-- JS `s.startsWith(p)`, written at the character-list level (the builtin
`String.startsWith` is not reducible by kernel evaluation). -/
def strStartsWith (s p : String) : Bool := s.data.take p.length == p.data

/-! ## JSON-level model of `safeLocalStorageGet` (src/scripts.js lines 1-20)

The corruption-recovery read is specified at the level of parsed JSON
values, so here the store maps a key to the outcome of
`localStorage.getItem` + `JSON.parse`. -/

/-- A parsed JSON value.  JS arrays can carry named properties in addition
to their elements (the normalization below assigns properties to whatever
object `JSON.parse` produced), hence the extra `props` list on `arr`. -/
inductive JSValue where
  | null
  | bool (b : Bool)
  | num (q : ℚ)
  | str (s : String)
  | arr (elems : List JSValue) (props : List (String × JSValue))
  | obj (fields : List (String × JSValue))

/-- Outcome of `localStorage.getItem(key)` followed by `JSON.parse`:
the item can be the empty string (falsy, so the code returns the fallback
before parsing), fail to parse (the `catch` returns the fallback), or parse
to a JSON value. -/
inductive JSRaw where
  | emptyStr
  | malformed
  | json (v : JSValue)

/-- JS `typeof v === 'object'`: true exactly for `null`, arrays and
objects. -/
def jsTypeofIsObject : JSValue → Bool
  | JSValue.null => true
  | JSValue.arr _ _ => true
  | JSValue.obj _ => true
  | _ => false

/-- JS property read `v[name]` on a non-null value (`none` = `undefined`).
Reading a property of a primitive yields `undefined` for the properties
used here. -/
def getProp : JSValue → String → Option JSValue
  | JSValue.obj fields, name => lookupK fields name
  | JSValue.arr _ props, name => lookupK props name
  | _, _ => none

/-- JS property write `v[name] = w` on a non-null value.  On primitives a
sloppy-mode property assignment is a silent no-op. -/
def setProp : JSValue → String → JSValue → JSValue
  | JSValue.obj fields, name, w => JSValue.obj (setK fields name w)
  | JSValue.arr es props, name, w => JSValue.arr es (setK props name w)
  | v, _, _ => v

/-- JS truthiness of a property-read result: `undefined`, `null`, `false`,
`0` and the empty string are falsy (NaN cannot occur in parsed JSON). -/
def jsTruthy : Option JSValue → Bool
  | none => false
  | some JSValue.null => false
  | some (JSValue.bool b) => b
  | some (JSValue.num q) => !(decide (q = 0))
  | some (JSValue.str s) => !(decide (s = ""))
  | some (JSValue.arr _ _) => true
  | some (JSValue.obj _) => true

/-- JS `typeof x === 'boolean'` on a property-read result. -/
def jsIsBoolean : Option JSValue → Bool
  | some (JSValue.bool _) => true
  | _ => false

/-- The three normalization assignments of `safeLocalStorageGet` applied to
a non-null parsed value:
`if (!parsed.domains) parsed.domains = {};`
`if (!parsed.tasks) parsed.tasks = [];`
`if (typeof parsed.alignment !== 'boolean') parsed.alignment = false;`. -/
def masteryNormalize (p : JSValue) : JSValue :=
  let p1 := if jsTruthy (getProp p "domains") then p
            else setProp p "domains" (JSValue.obj [])
  let p2 := if jsTruthy (getProp p1 "tasks") then p1
            else setProp p1 "tasks" (JSValue.arr [] [])
  if jsIsBoolean (getProp p2 "alignment") then p2
  else setProp p2 "alignment" (JSValue.bool false)

/-- `safeLocalStorageGet(key, fallback)` (src/scripts.js lines 2-20).
A missing item, an empty-string item (`!item`), a parse failure, or an
exception during normalization (property access on `null` throws
`TypeError`, caught by the surrounding `try`) all return the fallback.
A parsed value under a `mastery_`-prefixed key whose `typeof` is
`'object'` is normalized field by field; every other parsed value is
returned as is. -/
def safeLocalStorageGet (key : String) (fallback : JSValue)
    (store : String → Option JSRaw) : JSValue :=
  match store key with
  | none => fallback
  | some JSRaw.emptyStr => fallback
  | some JSRaw.malformed => fallback
  | some (JSRaw.json parsed) =>
      if strStartsWith key "mastery_" && jsTypeofIsObject parsed then
        match parsed with
        | JSValue.null => fallback
        | p => masteryNormalize p
      else parsed

/-! ## String-keyed store model of `clearOldData` (src/scripts.js lines 42-56)

`clearOldData` walks `localStorage` by index while removing items, so the
store is modelled as the ordered list of key/value pairs and the walk as an
index-incrementing loop; removing a key shifts later entries down exactly
as `localStorage.removeItem` does. -/

/-- `new Date(a) < cutoff` for the strings this code produces: two ISO
`YYYY-MM-DD` dates compare exactly as strings compare lexicographically;
a string that is not a full 10-character ISO date parses to an invalid
date here, and every comparison against `NaN` is false. -/
def isoDateLt (a b : String) : Bool :=
  (a.length == 10) && (b.length == 10) && decide (a < b)

/-- The removal test of `clearOldData`:
`key.startsWith('mastery_') && key.length === 16` (commented `// Date keys`
in the source), then `new Date(key.replace('mastery_','')) < cutoff`.
For a key starting with `mastery_`, `replace` drops exactly that 8-character
prefix. -/
def shouldClear (cutoff : String) (key : String) : Bool :=
  strStartsWith key "mastery_" && (key.length == 16) &&
    isoDateLt (key.drop 8) cutoff

/-- The `for (let i = 0; i < localStorage.length; i++)` loop of
`clearOldData`: read the key at index `i`, remove it if `shouldClear`,
and increment `i` regardless.  `fuel` bounds the iteration count; starting
it at the initial store length is exact, because `i` grows by one per
iteration and the length never grows, so the loop runs at most that many
times. -/
def clearOldLoop (cutoff : String) :
    ℕ → ℕ → List (String × String) → List (String × String)
  | 0, _, s => s
  | fuel + 1, i, s =>
      if h : i < s.length then
        let key := (s.get ⟨i, h⟩).1
        let s2 := if shouldClear cutoff key
                  then s.filter (fun kv => !(kv.1 == key)) else s
        clearOldLoop cutoff fuel (i + 1) s2
      else s

/-- `clearOldData()` (src/scripts.js lines 42-56), with the cutoff date
(`now` minus 3 months, as an ISO `YYYY-MM-DD` string) passed explicitly. -/
def clearOldData (cutoff : String) (s : List (String × String)) :
    List (String × String) :=
  clearOldLoop cutoff s.length 0 s

/-- Store for exercising `clearOldData`: one day-keyed record far older
than any realistic cutoff, plus an unrelated `mastery_` key. -/
def c1Store : List (String × String) :=
  [("mastery_2020-01-01", "old day record"), ("mastery_goal_path", "goals")]

/-! ## `backupEntireSystem` (src/scripts.js lines 704-745)

The backup walks every `localStorage` key and copies the raw string value
of each selected key, then attaches a `_metadata` object.  `totalEntries`
is `Object.keys(backup).length - 1` evaluated before `_metadata` itself is
added, i.e. one less than the number of data keys. -/

/-- The key filter of `backupEntireSystem`, disjunct for disjunct as in the
source (the last three disjuncts are subsumed by the `mastery_` prefix but
are kept verbatim). -/
def backupKeySelected (key : String) : Bool :=
  strStartsWith key "mastery_" ||
  strStartsWith key "industry_" ||
  key == "current_intensity" ||
  key == "mastery_goal_path" ||
  key == "mastery_runway_savings" ||
  key == "mastery_runway_expenses"

/-- The `_metadata` entry of a backup. -/
structure BackupMetadata where
  version : String
  backupDate : String
  totalEntries : ℤ
  system : String
deriving DecidableEq, Repr

/-- A produced backup object: the copied key/value pairs plus `_metadata`. -/
structure Backup where
  data : List (String × String)
  metadata : BackupMetadata
deriving DecidableEq, Repr

/-- `backupEntireSystem()` (src/scripts.js lines 704-745) restricted to the
backup object it builds; `now` is `new Date().toISOString()`.  The download
/ DOM side effects are outside the data model. -/
def backupEntireSystem (now : String) (store : List (String × String)) :
    Backup :=
  let data := store.filter (fun kv => backupKeySelected kv.1)
  { data := data
    metadata :=
      { version := "2.0"
        backupDate := now
        totalEntries := (data.length : ℤ) - 1
        system := "Hollywood Mastery Destiny Protocol" } }

/-- Store holding one metric-history key (written by `incrementMetric`,
src/scripts.js lines 1563-1593, under `<metricId>_history_<YYYY-MM>`). -/
def c6Store : List (String × String) :=
  [("tier1-auditions_history_2025-12", "log entries")]

/-! ## Typed model of the daily record and its operations

All remaining claims read daily records through `safeLocalStorageGet`
with the well-formed shapes the program itself writes, so they are modelled
at the record level: a `DayRec` is the parsed value of a
`mastery_<date>` key.  Calendar days are modelled as integers (the day
index), since every date computation in the embedded fragments is
`today - i` days.  For a missing key `safeLocalStorageGet` returns the
`{}` fallback, whose reads (`data.domains?.`, `if (data.tasks)`,
`data.alignment ||`, `data.totalXP ||`) behave exactly like the empty
record `defaultRec` below.  String timestamp fields (`timestamp`,
`updated`, `alignmentTime`) are never read by any embedded computation and
are omitted. -/

/-- A task of a daily record (`Task` itself is taken by Lean core). -/
structure TaskItem where
  id : ℤ
  text : String
  category : String
  xp : ℚ
  completed : Bool
deriving DecidableEq, Repr

/-- Per-domain accumulator: running `total` plus the activity log
(category, xp) appended to by the quick-XP path. -/
structure DomainActivity where
  total : ℚ
  activities : List (String × ℚ)
deriving DecidableEq, Repr

/-- A parsed `mastery_<date>` record.  `totalXP` is `none` when the field
is absent. -/
structure DayRec where
  domains : List (String × DomainActivity)
  tasks : List TaskItem
  alignment : Bool
  totalXP : Option ℚ
  alignmentReason : Option String
deriving DecidableEq, Repr

/-- The record seen through `safeLocalStorageGet(key, {})` when the key is
missing. -/
def defaultRec : DayRec :=
  { domains := [], tasks := [], alignment := false
    totalXP := none, alignmentReason := none }

/-- The day-keyed portion of `localStorage`, day index to record. -/
abbrev MStore := List (ℤ × DayRec)

/-- `safeLocalStorageGet('mastery_' + date, {})` at the record level. -/
def getRec (store : MStore) (d : ℤ) : DayRec :=
  (lookupK store d).getD defaultRec

/-- `safeLocalStorageSet('mastery_' + date, data)` at the record level
(the write succeeds; quota failures concern only claim C1). -/
def setRec (store : MStore) (d : ℤ) (r : DayRec) : MStore :=
  setK store d r

/-- The total-XP computation shared by `updateDomainProgress` (lines
1247-1320) and `saveAlignment` (lines 1348-1393): sum of `total` over all
domain keys present in the record plus the XP of every completed task
(special categories included). -/
def computeTotalXP (r : DayRec) : ℚ :=
  ((r.domains.map (fun kv => kv.2.total)).sum) +
    (((r.tasks.filter (fun t => t.completed)).map (fun t => t.xp)).sum)

/-- The store effect of `updateDomainProgress()` (src/scripts.js lines
1247-1320): recompute the day total and, only when the record has
`alignment` set, cache it back into the record
(`if (data.alignment) { data.totalXP = totalXP; ... }`).  All other work
of the function is DOM display. -/
def updateDomainProgress (store : MStore) (d : ℤ) : MStore :=
  let data := getRec store d
  let totalXP := computeTotalXP data
  if data.alignment then setRec store d { data with totalXP := some totalXP }
  else store

/-- `toggleTask(taskId)` (src/scripts.js lines 922-944): flip `completed`
on the first task with the given id, save, refresh progress.  The
`if (data.tasks)` guard is always true after normalization. -/
def toggleTask (store : MStore) (d : ℤ) (taskId : ℤ) : MStore :=
  let data := getRec store d
  match data.tasks.find? (fun t => t.id == taskId) with
  | some _ =>
      let data2 := { data with
        tasks := updateFirst (fun t => t.id == taskId)
          (fun t => { t with completed := !t.completed }) data.tasks }
      updateDomainProgress (setRec store d data2) d
  | none => store

/-- `deleteTask(taskId)` (src/scripts.js lines 1126-1138) with the confirm
dialog accepted: drop every task with the given id, save, refresh
progress. -/
def deleteTask (store : MStore) (d : ℤ) (taskId : ℤ) : MStore :=
  let data := getRec store d
  let data2 := { data with
    tasks := data.tasks.filter (fun t => !(t.id == taskId)) }
  updateDomainProgress (setRec store d data2) d

/-- `saveTaskEdit()` (src/scripts.js lines 1141-1171): validation rejects
empty text and non-positive XP before any mutation; otherwise the first
task with the edited id gets the new text/xp/category, then save and
refresh. -/
def saveTaskEdit (store : MStore) (d : ℤ) (editingId : ℤ)
    (taskText : String) (xpValue : ℚ) (category : String) : MStore :=
  if taskText = "" then store
  else if xpValue ≤ 0 then store
  else
    let data := getRec store d
    match data.tasks.find? (fun t => t.id == editingId) with
    | some _ =>
        let data2 := { data with
          tasks := updateFirst (fun t => t.id == editingId)
            (fun t => { t with text := taskText, xp := xpValue,
                               category := category }) data.tasks }
        updateDomainProgress (setRec store d data2) d
    | none => store

/-- `addQuickDomainXP(domain, amount)` (src/scripts.js lines 946-971):
lazily create the domain accumulator, add to its total, append the quick
activity, save, refresh. -/
def addQuickDomainXP (store : MStore) (d : ℤ) (domain : String)
    (amount : ℚ) : MStore :=
  let data := getRec store d
  let cur := (lookupK data.domains domain).getD ⟨0, []⟩
  let data2 := { data with
    domains := setK data.domains domain
      ⟨cur.total + amount, cur.activities ++ [(domain, amount)]⟩ }
  updateDomainProgress (setRec store d data2) d

/-- `saveAlignment()` (src/scripts.js lines 1348-1393) with the already
trimmed evidence text: rejected below 30 characters or below 160 computed
XP, otherwise the record gets `alignment = true`, the reason, and the
computed `totalXP` cached. -/
def saveAlignment (store : MStore) (d : ℤ) (reason : String) : MStore :=
  if reason.length < 30 then store
  else
    let data := getRec store d
    let totalXP := computeTotalXP data
    if totalXP < 160 then store
    else setRec store d { data with
      alignment := true, alignmentReason := some reason,
      totalXP := some totalXP }

/-- The mutating operations named by claim C2. -/
inductive MOp where
  | toggle (taskId : ℤ)
  | delete (taskId : ℤ)
  | edit (taskId : ℤ) (text : String) (xp : ℚ) (category : String)
  | quickXP (domain : String) (amount : ℚ)
  | refresh
  | align (reason : String)

/-- Run one operation against today's record. -/
def applyMOp : MOp → MStore → ℤ → MStore
  | MOp.toggle id, s, d => toggleTask s d id
  | MOp.delete id, s, d => deleteTask s d id
  | MOp.edit id text xp cat, s, d => saveTaskEdit s d id text xp cat
  | MOp.quickXP dom amt, s, d => addQuickDomainXP s d dom amt
  | MOp.refresh, s, d => updateDomainProgress s d
  | MOp.align reason, s, d => saveAlignment s d reason

/-- The cached-total invariant of claim C2 (amended): an aligned record
carries exactly the recomputed day total. -/
def recInv (r : DayRec) : Prop :=
  r.alignment = true → r.totalXP = some (computeTotalXP r)

/-- Store for the C2 counterexample: an aligned day whose cached total 165
comes from 160 domain XP plus one completed 5-XP task. -/
def c2Store : MStore :=
  [(0, { domains := [("creation", ⟨160, []⟩)]
         tasks := [⟨1, "ship the reel", "critical", 5, true⟩]
         alignment := true
         totalXP := some 165
         alignmentReason := some "sent the reel to four casting directors today" })]

/-! ## `getLast7DaysData` (src/scripts.js lines 248-283) -/

/-- One entry pushed by `getLast7DaysData`, with its per-domain map split
into the four fixed `DOMAINS` keys (creation, physical, meditation,
recovery — src/scripts.js lines 455-460). -/
structure DayEntry where
  date : ℤ
  totalXP : ℚ
  creation : ℚ
  physical : ℚ
  meditation : ℚ
  recovery : ℚ
  alignment : Bool
deriving DecidableEq, Repr

/-- `data.domains?.[domain]?.total || 0` for one fixed domain name. -/
def domainTotalOf (r : DayRec) (name : String) : ℚ :=
  ((lookupK r.domains name).map DomainActivity.total).getD 0

/-- The completed-task XP accumulated by the `data.tasks.forEach` loop of
`getLast7DaysData`. -/
def completedTaskXP (r : DayRec) : ℚ :=
  ((r.tasks.filter (fun t => t.completed)).map (fun t => t.xp)).sum

/-- The entry `getLast7DaysData` builds for one day: the per-domain values
are the raw domain-activity totals, `totalXP` is their sum plus completed
task XP (any cached `data.totalXP` is not consulted), and `alignment` is
`data.alignment || false`. -/
def mkDayEntry (store : MStore) (d : ℤ) : DayEntry :=
  let data := getRec store d
  let creation := domainTotalOf data "creation"
  let physical := domainTotalOf data "physical"
  let meditation := domainTotalOf data "meditation"
  let recovery := domainTotalOf data "recovery"
  { date := d
    totalXP := creation + physical + meditation + recovery +
      completedTaskXP data
    creation := creation, physical := physical
    meditation := meditation, recovery := recovery
    alignment := data.alignment }

/-- `getLast7DaysData()` (src/scripts.js lines 248-283): entries for
`today - i`, `i = 0..6`, most recent first. -/
def getLast7DaysData (store : MStore) (today : ℤ) : List DayEntry :=
  (List.range 7).map (fun i : ℕ => mkDayEntry store (today - (i : ℤ)))

/-! ## The streak walk of `loadStreak` (src/scripts.js lines 1395-1479) -/

/-- The per-day XP used by the streak walk:
`let dayXP = data.totalXP || 0; if (!data.totalXP) { recompute }` — the
cached total when it is present and non-zero (JS truthiness), otherwise the
recomputed domain + completed-task sum. -/
def streakDayXP (r : DayRec) : ℚ :=
  match r.totalXP with
  | some t => if t = 0 then computeTotalXP r else t
  | none => computeTotalXP r

/-- A day extends the streak iff its record has `alignment` set and its
day XP reaches 160. -/
def dayQualifies (r : DayRec) : Bool :=
  r.alignment && decide ((160 : ℚ) ≤ streakDayXP r)

/-- The `for (let i = 1; i <= 30; i++)` walk of `loadStreak`: starting at
offset `i` days before `today` with `fuel` days left to inspect, count
qualifying days and stop at the first day that fails. -/
def streakGo (store : MStore) (today : ℤ) : ℕ → ℤ → ℕ
  | 0, _ => 0
  | fuel + 1, i =>
      if dayQualifies (getRec store (today - i))
      then streakGo store today fuel (i + 1) + 1
      else 0

/-- The streak count computed by `loadStreak()` (src/scripts.js lines
1395-1479): walk backward from yesterday over at most 30 days.  Today's
record feeds only the at-risk display, not this count. -/
def loadStreak (store : MStore) (today : ℤ) : ℕ :=
  streakGo store today 30 1

/-- Store for the C8 scenario: five qualifying days before `today = 0`,
then an aligned day with only 159 XP, then further qualifying days. -/
def c8Store : MStore :=
  [(-1, { defaultRec with alignment := true, totalXP := some 200 }),
   (-2, { defaultRec with alignment := true, totalXP := some 200 }),
   (-3, { defaultRec with alignment := true, totalXP := some 200 }),
   (-4, { defaultRec with alignment := true, totalXP := some 200 }),
   (-5, { defaultRec with alignment := true, totalXP := some 200 }),
   (-6, { defaultRec with alignment := true, totalXP := some 159 }),
   (-7, { defaultRec with alignment := true, totalXP := some 200 }),
   (-8, { defaultRec with alignment := true, totalXP := some 200 })]

/-! ## The momentum engine (src/scripts.js lines 144-246)

The factor and score functions are pure over the window of `DayEntry`s, as
the specification views them.  All arithmetic is exact rational arithmetic
except one spot: for a window of exactly 2 or 3 entries
`calculateGrowthScore` divides by the length 0 of `days.slice(3)`, which
in JS produces `NaN` (`0/0`); the `NaN` then flows through `Math.max`,
`Math.min`, the weighted sum and `Math.round` unchanged.  That single
source of `NaN` is modelled by returning `none` at the point it arises and
propagating it to the composite score. -/

/-- `calculateConsistencyScore` (src/scripts.js lines 171-174). -/
def calculateConsistencyScore (days : List DayEntry) : ℚ :=
  (((days.filter (fun day => decide ((160 : ℚ) ≤ day.totalXP))).length : ℚ)
    / 7) * 100

/-- `calculateGrowthScore` (src/scripts.js lines 176-189).  `none` is the
`NaN` produced when `days.slice(3)` is empty (length 2 or 3). -/
def calculateGrowthScore (days : List DayEntry) : Option ℚ :=
  if days.length < 2 then some 50
  else if (days.drop 3).length = 0 then none
  else
    let recent := days.take 3
    let older := days.drop 3
    let recentAvg := ((recent.map (fun day => day.totalXP)).sum)
      / (recent.length : ℚ)
    let olderAvg := ((older.map (fun day => day.totalXP)).sum)
      / (older.length : ℚ)
    if olderAvg = 0 then (if recentAvg > 0 then some 100 else some 0)
    else some (min (max ((recentAvg - olderAvg) / olderAvg * 100 + 50) 0) 100)

/-- `calculateBalanceScore` (src/scripts.js lines 191-204): min over max of
the four per-domain averages, times 100; 0 when the max is 0.  Its only
caller reaches it with a non-empty window. -/
def calculateBalanceScore (days : List DayEntry) : ℚ :=
  let creationAvg := ((days.map (fun day => day.creation)).sum)
    / (days.length : ℚ)
  let physicalAvg := ((days.map (fun day => day.physical)).sum)
    / (days.length : ℚ)
  let meditationAvg := ((days.map (fun day => day.meditation)).sum)
    / (days.length : ℚ)
  let recoveryAvg := ((days.map (fun day => day.recovery)).sum)
    / (days.length : ℚ)
  let minAvg := min (min (min creationAvg physicalAvg) meditationAvg)
    recoveryAvg
  let maxAvg := max (max (max creationAvg physicalAvg) meditationAvg)
    recoveryAvg
  if maxAvg = 0 then 0 else minAvg / maxAvg * 100

/-- `calculateIntensityScore` (src/scripts.js lines 206-209). -/
def calculateIntensityScore (days : List DayEntry) : ℚ :=
  (((days.filter (fun day => decide ((200 : ℚ) ≤ day.totalXP))).length : ℚ)
    / 7) * 100

/-- `calculateMomentumScoreForPeriod` (src/scripts.js lines 223-226). -/
def calculateMomentumScoreForPeriod (periodDays : List DayEntry) : ℚ :=
  if periodDays.length = 0 then 0
  else ((periodDays.map (fun day => day.totalXP)).sum)
    / (periodDays.length : ℚ)

/-- `getMomentumTrend(days, currentScore)` (src/scripts.js lines 211-221):
below 4 days of history the trend is `starting`; otherwise the composite
score passed in is compared against the plain 3-day average of
`days.slice(0, 3)`.  The average of `days.slice(3, 6)` is computed by the
source but never used. -/
def getMomentumTrend (days : List DayEntry) (currentScore : ℚ) : String :=
  if days.length < 4 then "starting"
  else
    let recentScore := calculateMomentumScoreForPeriod (days.take 3)
    let previousScore := calculateMomentumScoreForPeriod
      ((days.drop 3).take 3)
    if currentScore > recentScore + 10 then "accelerating"
    else if currentScore > recentScore + 5 then "growing"
    else if currentScore ≥ recentScore - 5 then "steady"
    else "declining"

/-- `generateMomentumRecommendation(score, trend, factors)`
(src/scripts.js lines 228-246); `trend` is accepted and ignored exactly as
in the source. -/
def generateMomentumRecommendation (score : ℚ) (trend : String)
    (consistency : ℚ) (growth : ℚ) : String :=
  if score ≥ 90 then
    "Elite momentum! Maintain this intensity and focus on breakthrough opportunities."
  else if score ≥ 75 then
    "Strong momentum! Increase intensity slightly for breakthrough acceleration."
  else if score ≥ 60 then
    if consistency < 80 then
      "Good progress! Focus on daily consistency to build unstoppable momentum."
    else if growth < 60 then
      "Consistent but stagnant. Add 10% more intensity to each domain."
    else
      "Solid foundation! Now push one domain to mastery level each day."
  else if score ≥ 40 then
    "Building foundation. Focus on hitting daily minimums consistently."
  else
    "Initial phase. Start with one domain at a time and build consistency."

/-- The `{score, trend, recommendation}` object of `calculateMomentumScore`
(the `factors` field is reproducible from the window and omitted).
`score = none` is the `NaN` score of a 2- or 3-entry window. -/
structure MomentumResult where
  score : Option ℤ
  trend : String
  recommendation : String
deriving DecidableEq, Repr

/-- `calculateMomentumScore()` (src/scripts.js lines 144-169) over its
window.  An empty window returns the fixed defaults.  When the growth
factor is `NaN` (window length 2 or 3) the weighted sum and `Math.round`
stay `NaN`; every `NaN` comparison in `getMomentumTrend` and
`generateMomentumRecommendation` is false, so the trend chain falls to its
length guard (`starting`, since 2 and 3 are below 4; `declining`
otherwise) and the recommendation to its final branch. -/
def calculateMomentumScore (days : List DayEntry) : MomentumResult :=
  if days.length = 0 then
    { score := some 0, trend := "starting"
      recommendation := "Begin your journey with consistent daily effort." }
  else
    let consistency := calculateConsistencyScore days
    let balance := calculateBalanceScore days
    let intensity := calculateIntensityScore days
    match calculateGrowthScore days with
    | some growth =>
        let score := jsRound (consistency * 0.4 + growth * 0.3 +
          balance * 0.2 + intensity * 0.1)
        { score := some score
          trend := getMomentumTrend days (score : ℚ)
          recommendation := generateMomentumRecommendation (score : ℚ)
            (getMomentumTrend days (score : ℚ)) consistency growth }
    | none =>
        { score := none
          trend := if days.length < 4 then "starting" else "declining"
          recommendation :=
            "Initial phase. Start with one domain at a time and build consistency." }

/-! ## `calculateHollywoodProbability` (src/scripts.js lines 552-578) -/

/-- The `{total, breakdown}` object returned by
`calculateHollywoodProbability`. -/
structure HollywoodProbability where
  total : ℤ
  consistency : ℤ
  opportunities : ℤ
  callbacks : ℤ
  bookings : ℤ
deriving DecidableEq, Repr

/-- `calculateHollywoodProbability()` (src/scripts.js lines 552-578) as a
function of the four non-negative counters read from the display:
independently capped contributions, total capped at 95, each value rounded
for the returned object while the sum is taken over the unrounded
contributions. -/
def calculateHollywoodProbability (streak tier1Auditions callbacks roles : ℕ) :
    HollywoodProbability :=
  let consistencyScore : ℚ := min ((streak : ℚ) * 0.8) 20
  let opportunitiesScore : ℚ := min ((tier1Auditions : ℚ) * 0.6) 30
  let callbacksScore : ℚ := min ((callbacks : ℚ) * 4) 30
  let bookingsScore : ℚ := min ((roles : ℚ) * 20) 20
  let totalProbability := min
    (consistencyScore + opportunitiesScore + callbacksScore + bookingsScore)
    95
  { total := jsRound totalProbability
    consistency := jsRound consistencyScore
    opportunities := jsRound opportunitiesScore
    callbacks := jsRound callbacksScore
    bookings := jsRound bookingsScore }

/-! ## Definitions following the words of the spec/claims

These mirror sentences of the specification, not the source, and exist
only to be compared against the source-derived definitions above. -/

/-- Follows the spec's words: `effectiveXP(record)` returns the cached
`totalXP` when the field is set, otherwise the recomputed domain plus
completed-task sum. -/
def effectiveXPSpec (r : DayRec) : ℚ :=
  match r.totalXP with
  | some t => t
  | none => computeTotalXP r

/-- The static category-to-domain table `TASK_CATEGORIES`
(src/scripts.js lines 462-486); the two special categories map to
`special`. -/
def categoryDomain (cat : String) : String :=
  if cat = "act" ∨ cat = "study" ∨ cat = "create" ∨ cat = "network" ∨
     cat = "reading" ∨ cat = "writing" ∨ cat = "voice" then "creation"
  else if cat = "marts" ∨ cat = "cardio" ∨ cat = "gym" ∨ cat = "yoga" ∨
     cat = "dance" ∨ cat = "stretch" then "physical"
  else if cat = "meditation" ∨ cat = "breathwork" ∨ cat = "visualization" ∨
     cat = "mindfulness" then "meditation"
  else if cat = "sleep" ∨ cat = "nutrition" ∨ cat = "recovery" ∨
     cat = "planning" then "recovery"
  else "special"

/-- Follows claim C3's words: the entry for a day has, for each fixed
domain, the day's domain-activity total plus the XP of the day's completed
tasks whose category maps to that domain, and `totalXP` equal to
`effectiveXP` of the record. -/
def mkDayEntryClaimed (store : MStore) (d : ℤ) : DayEntry :=
  let data := getRec store d
  let taskXPFor := fun (name : String) =>
    (((data.tasks.filter (fun t =>
        t.completed && (categoryDomain t.category == name))).map
      (fun t => t.xp)).sum)
  { date := d
    totalXP := effectiveXPSpec data
    creation := domainTotalOf data "creation" + taskXPFor "creation"
    physical := domainTotalOf data "physical" + taskXPFor "physical"
    meditation := domainTotalOf data "meditation" + taskXPFor "meditation"
    recovery := domainTotalOf data "recovery" + taskXPFor "recovery"
    alignment := data.alignment }

/-- Follows claim C4's words: compare the simple 3-day average of
`days[0:3]` (as `current`) against that of `days[3:6]` (as `recent`) with
the stated thresholds. -/
def trendClaimed (days : List DayEntry) : String :=
  if days.length < 4 then "starting"
  else
    let current := calculateMomentumScoreForPeriod (days.take 3)
    let recent := calculateMomentumScoreForPeriod ((days.drop 3).take 3)
    if current > recent + 10 then "accelerating"
    else if current > recent + 5 then "growing"
    else if current ≥ recent - 5 then "steady"
    else "declining"

/-- Well-formedness of a daily entry as far as the momentum bounds need
it: non-negative per-domain XP. -/
def WellFormedEntry (d : DayEntry) : Prop :=
  0 ≤ d.creation ∧ 0 ≤ d.physical ∧ 0 ≤ d.meditation ∧ 0 ≤ d.recovery

/-! ## Concrete inputs for the counterexamples and witnesses -/

/-- Store for the C3 counterexample: today's record has 5 creation-domain
XP, one completed 10-XP task of category `act` (a creation category), and
a stale cached total of 100. -/
def c3Store : MStore :=
  [(0, { domains := [("creation", ⟨5, []⟩)]
         tasks := [⟨1, "table read", "act", 10, true⟩]
         alignment := true
         totalXP := some 100
         alignmentReason := none })]

/-- A balanced 170-XP day: 50 creation and 40 in each other domain. -/
def day170 : DayEntry :=
  { date := 0, totalXP := 170, creation := 50, physical := 40
    meditation := 40, recovery := 40, alignment := true }

/-- Seven identical 170-XP days (window for the C4 counterexample). -/
def c4Days : List DayEntry :=
  [day170, day170, day170, day170, day170, day170, day170]

/-- A balanced 160-XP day, 40 XP in every domain. -/
def dayStd : DayEntry :=
  { date := 0, totalXP := 160, creation := 40, physical := 40
    meditation := 40, recovery := 40, alignment := true }

/-- A 159-XP day (one recovery point short). -/
def day159 : DayEntry :=
  { date := 0, totalXP := 159, creation := 40, physical := 40
    meditation := 40, recovery := 39, alignment := true }

/-- A wildly unbalanced qualifying day: one million XP, all in creation. -/
def dayBig : DayEntry :=
  { date := 0, totalXP := 1000000, creation := 1000000, physical := 0
    meditation := 0, recovery := 0, alignment := true }

/-- Window B of the C5 counterexample: standard days with one
non-qualifying 159-XP day at index 3. -/
def c5DaysB : List DayEntry :=
  [dayStd, dayStd, dayStd, day159, dayStd, dayStd, dayStd]

/-- Window A of the C5 counterexample: window B with the non-qualifying
day replaced by the qualifying `dayBig`. -/
def c5DaysA : List DayEntry := c5DaysB.set 3 dayBig

/-- A two-entry window (C7 counterexample input). -/
def c7TwoDays : List DayEntry := [day170, day170]

/-- A seven-entry all-zero window (C7 witness input). -/
def c7SevenDays : List DayEntry :=
  List.replicate 7
    { date := 0, totalXP := 0, creation := 0, physical := 0
      meditation := 0, recovery := 0, alignment := false }

/-- Store for the C10 witness: the goal-path key holds a plain object with
none of the daily-record fields. -/
def c10Store : String → Option JSRaw := fun k =>
  if k = "mastery_goal_path"
  then some (JSRaw.json (JSValue.obj [("ultimateAim", JSValue.str "lead role")]))
  else none

/-- Store for the C10 null clause: a weekly-review key whose stored text is
the four characters `null`. -/
def c10NullStore : String → Option JSRaw := fun k =>
  if k = "mastery_review_2026-01-05" then some (JSRaw.json JSValue.null)
  else none

/-! ## Helper lemmas -/

theorem lookupK_setK_self {κ β : Type} [DecidableEq κ] :
    ∀ (l : List (κ × β)) (k : κ) (v : β), lookupK (setK l k v) k = some v := by
  intro l k v
  induction l with
  | nil => simp [setK, lookupK]
  | cons kv rest ih =>
      obtain ⟨k0, w⟩ := kv
      by_cases h : k0 = k
      · simp [setK, lookupK, h]
      · simp [setK, lookupK, h, ih]

theorem lookupK_setK_ne {κ β : Type} [DecidableEq κ] :
    ∀ (l : List (κ × β)) (k k' : κ) (v : β), k' ≠ k →
      lookupK (setK l k v) k' = lookupK l k' := by
  intro l k k' v hne
  induction l with
  | nil => simp [setK, lookupK, Ne.symm hne]
  | cons kv rest ih =>
      obtain ⟨k0, w⟩ := kv
      by_cases h : k0 = k
      · subst h
        simp [setK, lookupK, Ne.symm hne]
      · simp [setK, lookupK, h, ih]

theorem getRec_setRec (s : MStore) (d : ℤ) (r : DayRec) :
    getRec (setRec s d r) d = r := by
  unfold getRec setRec
  rw [lookupK_setK_self]
  rfl

theorem jsRound_nonneg {q : ℚ} (h : 0 ≤ q) : 0 ≤ jsRound q :=
  Int.le_floor.mpr (by push_cast; linarith)

theorem jsRound_le {q : ℚ} {z : ℤ} (h : q ≤ (z : ℚ)) : jsRound q ≤ z := by
  have hlt : jsRound q < z + 1 := Int.floor_lt.mpr (by push_cast; linarith)
  omega

/-- After a progress refresh the day's record satisfies the cached-total
invariant (vacuously when it is not aligned, because the refresh then
leaves the store untouched). -/
theorem updateDomainProgress_inv (s : MStore) (d : ℤ) :
    recInv (getRec (updateDomainProgress s d) d) := by
  by_cases h : (getRec s d).alignment = true
  · have heq : updateDomainProgress s d =
        setRec s d { getRec s d with
          totalXP := some (computeTotalXP (getRec s d)) } := by
      simp only [updateDomainProgress, h, if_true]
    rw [recInv, heq, getRec_setRec]
    intro _
    rfl
  · have heq : updateDomainProgress s d = s := by
      simp [updateDomainProgress, h]
    rw [recInv, heq]
    intro ha
    exact absurd ha h

/-! ## Claim C1 -/

/-- Claim C1 (code bug witness): `clearOldData` never removes a day-keyed
record, whatever the cutoff.  A day key is `mastery_` plus a 10-character
ISO date — 18 characters — while the filter demands `key.length === 16`,
so the removal branch is unreachable for exactly the keys the sweep is
documented (`// Date keys`, `// Keep 3 months of data`) to target: on a
store holding a day record from 2020 the sweep is the identity. -/
theorem C1_clearOldData_keeps_old_day_records :
    ∀ cutoff : String, clearOldData cutoff c1Store = c1Store := by
  intro cutoff
  rfl

/-! ## Claim C2 -/

/-- Claim C2 (counterexample): deleting the completed 5-XP task of an
aligned day whose cached total is 165 triggers the progress refresh, which
writes the smaller total 160 back into the record — `totalXP` is
decremented retroactively, contradicting the claimed invariant. -/
theorem C2_totalXP_counterexample :
    (getRec c2Store 0).totalXP = some 165 ∧
    (getRec (applyMOp (MOp.delete 1) c2Store 0) 0).totalXP = some 160 ∧
    (160 : ℚ) < 165 := by
  refine ⟨rfl, ?_, by norm_num⟩
  with_unfolding_all rfl

/-- Claim C2 (amended): each modelled operation either leaves the store
untouched (failed validation, unknown task id) or leaves today's record
satisfying the cached-total invariant — when `alignment` is set, `totalXP`
equals the sum of completed-task XP plus all domain-activity XP as of this
write.  The stored total therefore always matches the record around it,
but it is rewritten — possibly downward — by every operation that ends in
a progress refresh, so it reflects the latest write, not the moment
alignment was saved. -/
theorem C2_totalXP_amended :
    ∀ (op : MOp) (store : MStore) (d : ℤ),
      applyMOp op store d = store ∨
      recInv (getRec (applyMOp op store d) d) := by
  intro op store d
  cases op with
  | toggle id =>
      simp only [applyMOp, toggleTask]
      cases hf : (getRec store d).tasks.find? (fun t => t.id == id) with
      | none => left; rfl
      | some t => right; exact updateDomainProgress_inv _ _
  | delete id =>
      right
      simp only [applyMOp, deleteTask]
      exact updateDomainProgress_inv _ _
  | edit id text xp cat =>
      simp only [applyMOp, saveTaskEdit]
      by_cases h1 : text = ""
      · left; simp [h1]
      · by_cases h2 : xp ≤ 0
        · left; simp [h1, h2]
        · simp only [h1, h2, if_false]
          cases hf : (getRec store d).tasks.find? (fun t => t.id == id) with
          | none => left; rfl
          | some t => right; exact updateDomainProgress_inv _ _
  | quickXP dom amt =>
      right
      simp only [applyMOp, addQuickDomainXP]
      exact updateDomainProgress_inv _ _
  | refresh =>
      right
      exact updateDomainProgress_inv _ _
  | align reason =>
      simp only [applyMOp, saveAlignment]
      by_cases h1 : reason.length < 30
      · left; simp [h1]
      · by_cases h2 : computeTotalXP (getRec store d) < 160
        · left; simp [h1, h2]
        · right
          simp only [h1, h2, if_false]
          rw [recInv, getRec_setRec]
          intro _
          rfl

/-! ## Claim C6 -/

/-- Claim C6 (counterexample): a persisted metric-history key
`tier1-auditions_history_2025-12` — one of the namespaces listed in the
external-interface section — does not start with `mastery_` or
`industry_` and is not `current_intensity`, so `backupEntireSystem` omits
it: the backup of a store holding only that key has no data entries. -/
theorem C6_backup_counterexample :
    ("tier1-auditions_history_2025-12", "log entries") ∈ c6Store ∧
    (backupEntireSystem "2026-01-01T00:00:00.000Z" c6Store).data = [] := by
  exact ⟨by simp [c6Store], by rfl⟩

/-- Claim C6 (amended): the backup contains exactly the persisted keys
starting with `mastery_` or `industry_` plus `current_intensity` (the
goal-path and runway keys are `mastery_`-prefixed), together with a
`_metadata` entry `{version "2.0", backupDate now, totalEntries = data
count - 1, system "Hollywood Mastery Destiny Protocol"}`; the
`<metricId>_history_<YYYY-MM>` keys and `last_backup_time` are left out. -/
theorem C6_backup_amended :
    ∀ (now : String) (store : List (String × String)) (k v : String),
      ((k, v) ∈ (backupEntireSystem now store).data ↔
        ((k, v) ∈ store ∧ backupKeySelected k = true)) ∧
      (backupEntireSystem now store).metadata =
        { version := "2.0", backupDate := now
          totalEntries := ((backupEntireSystem now store).data.length : ℤ) - 1
          system := "Hollywood Mastery Destiny Protocol" } := by
  intro now store k v
  constructor
  · simp [backupEntireSystem, List.mem_filter]
  · rfl

/-! ## Claim C8 -/

/-- Claim C8 (confirmed): the streak of `loadStreak` is the length of the
maximal contiguous qualifying run over the records of the 30 days ending
at yesterday — a day qualifies iff its record has `alignment` set and its
(cached or recomputed) XP reaches 160, and the walk stops at the first
failing day without skipping it.  On the claimed scenario — five
qualifying days before today, then an aligned 159-XP day, then more
qualifying days — the streak is exactly 5. -/
theorem C8_streak_confirmed :
    (∀ (store : MStore) (today : ℤ),
      loadStreak store today =
        (((List.range 30).map
            (fun k : ℕ => getRec store (today - 1 - (k : ℤ)))).takeWhile
          dayQualifies).length) ∧
    loadStreak c8Store 0 = 5 := by
  constructor
  · intro store today
    have key : ∀ (n : ℕ) (i : ℤ),
        streakGo store today n i =
          (((List.range n).map
              (fun k : ℕ => getRec store (today - i - (k : ℤ)))).takeWhile
            dayQualifies).length := by
      intro n
      induction n with
      | zero => intro i; rfl
      | succ m ih =>
          intro i
          rw [List.range_succ_eq_map]
          simp only [List.map_cons, List.map_map]
          have hfun : ((fun k : ℕ => getRec store (today - i - (k : ℤ))) ∘
              Nat.succ) = fun k : ℕ => getRec store (today - (i + 1) - (k : ℤ)) := by
            funext k
            simp only [Function.comp]
            congr 1
            push_cast
            ring
          rw [hfun]
          by_cases hq : dayQualifies (getRec store (today - i)) = true
          · have hcast : today - i - ((0 : ℕ) : ℤ) = today - i := by
              push_cast; ring
            rw [List.takeWhile_cons]
            simp only [hcast, hq, if_true, List.length_cons]
            rw [streakGo, if_pos hq, ih]
          · have hcast : today - i - ((0 : ℕ) : ℤ) = today - i := by
              push_cast; ring
            rw [List.takeWhile_cons]
            rw [streakGo, if_neg hq]
            simp [hcast, hq]
    exact key 30 1
  · with_unfolding_all rfl

/-! ## Claim C9 -/

/-- Claim C9 (confirmed): the breakthrough probability is the rounded,
95-capped sum of the four independently capped contributions, each
breakdown component being rounded separately from the unrounded value;
the total never exceeds 95, and the claimed scenario
`(streak 10, tier1 5, callbacks 2, roles 0)` yields breakdown
`8 / 3 / 8 / 0` and total `19`. -/
theorem C9_probability_confirmed :
    (∀ s t c r : ℕ,
      (calculateHollywoodProbability s t c r).total =
        jsRound (min (min ((s : ℚ) * 0.8) 20 + min ((t : ℚ) * 0.6) 30 +
          min ((c : ℚ) * 4) 30 + min ((r : ℚ) * 20) 20) 95) ∧
      (calculateHollywoodProbability s t c r).total ≤ 95) ∧
    calculateHollywoodProbability 10 5 2 0 =
      { total := 19, consistency := 8, opportunities := 3, callbacks := 8
        bookings := 0 } := by
  refine ⟨fun s t c r => ⟨rfl, ?_⟩, by with_unfolding_all decide⟩
  exact jsRound_le (by push_cast; exact min_le_right _ _)

/-! ## Bounds lemmas for the momentum factors -/

theorem growthScore_bounds (days : List DayEntry) (h2 : days.length ≠ 2)
    (h3 : days.length ≠ 3) :
    ∃ g, calculateGrowthScore days = some g ∧ 0 ≤ g ∧ g ≤ 100 := by
  unfold calculateGrowthScore
  by_cases hlt : days.length < 2
  · refine ⟨50, ?_, by norm_num, by norm_num⟩
    rw [if_pos hlt]
  · have hdl : ¬((days.drop 3).length = 0) := by
      rw [List.length_drop]; omega
    rw [if_neg hlt, if_neg hdl]
    dsimp only
    generalize ((List.take 3 days).map (fun day => day.totalXP)).sum /
      (((List.take 3 days).length : ℚ)) = R
    generalize ((List.drop 3 days).map (fun day => day.totalXP)).sum /
      (((List.drop 3 days).length : ℚ)) = O
    by_cases hO : O = 0
    · rw [if_pos hO]
      by_cases hR : R > 0
      · exact ⟨100, by rw [if_pos hR], by norm_num, by norm_num⟩
      · exact ⟨0, by rw [if_neg hR], by norm_num, by norm_num⟩
    · refine ⟨_, by rw [if_neg hO], ?_, ?_⟩
      · exact le_min (le_max_right _ 0) (by norm_num)
      · exact min_le_right _ _

theorem consistency_bounds (days : List DayEntry) (h7 : days.length ≤ 7) :
    0 ≤ calculateConsistencyScore days ∧ calculateConsistencyScore days ≤ 100 := by
  have hlen : (days.filter (fun day => decide ((160 : ℚ) ≤ day.totalXP))).length ≤ 7 :=
    le_trans (List.length_filter_le _ _) h7
  have hc : ((days.filter (fun day => decide ((160 : ℚ) ≤ day.totalXP))).length : ℚ) ≤ 7 := by
    exact_mod_cast hlen
  unfold calculateConsistencyScore
  constructor
  · positivity
  · linarith

theorem intensity_bounds (days : List DayEntry) (h7 : days.length ≤ 7) :
    0 ≤ calculateIntensityScore days ∧ calculateIntensityScore days ≤ 100 := by
  have hlen : (days.filter (fun day => decide ((200 : ℚ) ≤ day.totalXP))).length ≤ 7 :=
    le_trans (List.length_filter_le _ _) h7
  have hc : ((days.filter (fun day => decide ((200 : ℚ) ≤ day.totalXP))).length : ℚ) ≤ 7 := by
    exact_mod_cast hlen
  unfold calculateIntensityScore
  constructor
  · positivity
  · linarith

theorem minmax_ratio_bounds (a b c d : ℚ) (ha : 0 ≤ a) (hb : 0 ≤ b)
    (hc : 0 ≤ c) (hd : 0 ≤ d) :
    0 ≤ (if max (max (max a b) c) d = 0 then 0
         else min (min (min a b) c) d / max (max (max a b) c) d * 100) ∧
    (if max (max (max a b) c) d = 0 then 0
     else min (min (min a b) c) d / max (max (max a b) c) d * 100) ≤ 100 := by
  have hamax : a ≤ max (max (max a b) c) d :=
    le_trans (le_trans (le_max_left a b) (le_max_left _ c)) (le_max_left _ d)
  have hmin0 : 0 ≤ min (min (min a b) c) d :=
    le_min (le_min (le_min ha hb) hc) hd
  have hmina : min (min (min a b) c) d ≤ a :=
    le_trans (min_le_left _ d) (le_trans (min_le_left _ c) (min_le_left a b))
  by_cases hm : max (max (max a b) c) d = 0
  · simp [hm]
  · have hmaxpos : 0 < max (max (max a b) c) d :=
      lt_of_le_of_ne (le_trans ha hamax) (Ne.symm hm)
    rw [if_neg hm]
    constructor
    · exact mul_nonneg (div_nonneg hmin0 (le_of_lt hmaxpos)) (by norm_num)
    · have hratio : min (min (min a b) c) d / max (max (max a b) c) d ≤ 1 :=
        (div_le_one hmaxpos).mpr (le_trans hmina hamax)
      linarith

theorem balance_bounds (days : List DayEntry)
    (hwf : ∀ d ∈ days, WellFormedEntry d) :
    0 ≤ calculateBalanceScore days ∧ calculateBalanceScore days ≤ 100 := by
  have h1 : 0 ≤ ((days.map (fun day => day.creation)).sum) / ((days.length : ℚ)) := by
    refine div_nonneg (List.sum_nonneg ?_) (by positivity)
    intro x hx
    obtain ⟨d, hd, rfl⟩ := List.mem_map.mp hx
    exact (hwf d hd).1
  have h2 : 0 ≤ ((days.map (fun day => day.physical)).sum) / ((days.length : ℚ)) := by
    refine div_nonneg (List.sum_nonneg ?_) (by positivity)
    intro x hx
    obtain ⟨d, hd, rfl⟩ := List.mem_map.mp hx
    exact (hwf d hd).2.1
  have h3 : 0 ≤ ((days.map (fun day => day.meditation)).sum) / ((days.length : ℚ)) := by
    refine div_nonneg (List.sum_nonneg ?_) (by positivity)
    intro x hx
    obtain ⟨d, hd, rfl⟩ := List.mem_map.mp hx
    exact (hwf d hd).2.2.1
  have h4 : 0 ≤ ((days.map (fun day => day.recovery)).sum) / ((days.length : ℚ)) := by
    refine div_nonneg (List.sum_nonneg ?_) (by positivity)
    intro x hx
    obtain ⟨d, hd, rfl⟩ := List.mem_map.mp hx
    exact (hwf d hd).2.2.2
  unfold calculateBalanceScore
  exact minmax_ratio_bounds _ _ _ _ h1 h2 h3 h4

/-! ## Claim C7 -/

/-- Claim C7 (counterexample): on a window of exactly 2 well-formed
entries — a length the claim admits — `calculateGrowthScore` divides by
the zero length of `days.slice(3)`, producing `NaN`, and the composite
score is `NaN` rather than an integer between 0 and 100. -/
theorem C7_bounds_counterexample :
    c7TwoDays.length = 2 ∧ (calculateMomentumScore c7TwoDays).score = none := by
  exact ⟨rfl, by with_unfolding_all rfl⟩

/-- Claim C7 (amended): for every window of at most 7 well-formed entries
whose length is not 2 and not 3, the composite score is an integer with
`0 ≤ score ≤ 100`; the empty window yields score 0, trend `starting` and
the fixed begin-your-journey recommendation.  (For lengths 2 and 3 the
growth factor is `NaN` — see the counterexample — and the engine never
raises on any well-formed input, being total.) -/
theorem C7_bounds_amended :
    (∀ days : List DayEntry, days.length ≤ 7 → days.length ≠ 2 →
      days.length ≠ 3 → (∀ d ∈ days, WellFormedEntry d) →
      ∃ n : ℤ, (calculateMomentumScore days).score = some n ∧
        0 ≤ n ∧ n ≤ 100) ∧
    calculateMomentumScore [] =
      { score := some 0, trend := "starting"
        recommendation := "Begin your journey with consistent daily effort." } := by
  constructor
  · intro days h7 h2 h3 hwf
    by_cases h0 : days.length = 0
    · have hnil : days = [] := List.length_eq_zero.mp h0
      subst hnil
      exact ⟨0, rfl, le_refl 0, by norm_num⟩
    · obtain ⟨g, hg, hg0, hg100⟩ := growthScore_bounds days h2 h3
      have hcb := consistency_bounds days h7
      have hbb := balance_bounds days hwf
      have hib := intensity_bounds days h7
      refine ⟨jsRound (calculateConsistencyScore days * 0.4 + g * 0.3 +
        calculateBalanceScore days * 0.2 + calculateIntensityScore days * 0.1),
        ?_, jsRound_nonneg (by nlinarith [hcb.1, hbb.1, hib.1, hg0]),
        jsRound_le ?_⟩
      · unfold calculateMomentumScore
        rw [if_neg h0]
        simp only [hg]
      · push_cast
        nlinarith [hcb.2, hbb.2, hib.2, hg100]
  · rfl

/-- Seven-day window instantiating the amended C7 bounds. -/
theorem C7_bounds_amended_witness :
    ∃ n : ℤ, (calculateMomentumScore c7SevenDays).score = some n ∧
      0 ≤ n ∧ n ≤ 100 :=
  C7_bounds_amended.1 c7SevenDays (by decide) (by decide) (by decide)
    (by
      intro d hd
      rw [List.eq_of_mem_replicate hd]
      exact ⟨le_refl 0, le_refl 0, le_refl 0, le_refl 0⟩)

/-! ## Claim C4 -/

/-- Claim C4 (counterexample): on seven identical balanced 170-XP days the
comparison the claim describes — 3-day average 170 against 3-day average
170 — yields `steady`, but the source compares the composite score (71
here) against the 170 average and returns `declining`. -/
theorem C4_trend_counterexample :
    (calculateMomentumScore c4Days).trend = "declining" ∧
    trendClaimed c4Days = "steady" ∧
    ("declining" : String) ≠ "steady" := by
  refine ⟨by with_unfolding_all rfl, by with_unfolding_all rfl, by decide⟩

/-- Claim C4 (amended): with fewer than 4 days of history the trend is
`starting`; with at least 4 days, the trend compares the composite
momentum score itself — not the average of `days[0:3]` — against the
plain 3-day average of `days[0:3]`: `accelerating` above average+10,
`growing` above average+5, `steady` down to average−5, else `declining`;
the average of `days[3:6]` is computed by the source but unused. -/
theorem C4_trend_amended :
    (∀ days : List DayEntry, days.length < 4 →
      (calculateMomentumScore days).trend = "starting") ∧
    (∀ days : List DayEntry, 4 ≤ days.length →
      ∃ n : ℤ, (calculateMomentumScore days).score = some n ∧
        (calculateMomentumScore days).trend =
          (if (n : ℚ) > calculateMomentumScoreForPeriod (days.take 3) + 10
           then "accelerating"
           else if (n : ℚ) > calculateMomentumScoreForPeriod (days.take 3) + 5
           then "growing"
           else if (n : ℚ) ≥ calculateMomentumScoreForPeriod (days.take 3) - 5
           then "steady"
           else "declining")) := by
  constructor
  · intro days hlen
    by_cases h0 : days.length = 0
    · have hnil : days = [] := List.length_eq_zero.mp h0
      subst hnil
      rfl
    · unfold calculateMomentumScore
      rw [if_neg h0]
      cases hg : calculateGrowthScore days with
      | some g =>
          simp only [hg]
          unfold getMomentumTrend
          rw [if_pos hlen]
      | none =>
          simp only [hg]
          rw [if_pos hlen]
  · intro days h
    have h0 : ¬(days.length = 0) := by omega
    obtain ⟨g, hg, _, _⟩ := growthScore_bounds days (by omega) (by omega)
    refine ⟨jsRound (calculateConsistencyScore days * 0.4 + g * 0.3 +
      calculateBalanceScore days * 0.2 + calculateIntensityScore days * 0.1),
      ?_, ?_⟩
    · unfold calculateMomentumScore
      rw [if_neg h0]
      simp only [hg]
    · unfold calculateMomentumScore
      rw [if_neg h0]
      simp only [hg]
      unfold getMomentumTrend
      rw [if_neg (by omega : ¬(days.length < 4))]

/-- Instantiation of the amended C4 trend theorem: a single-day window is
`starting`, and the full 7-day window follows the score-versus-average
comparison. -/
theorem C4_trend_amended_witness :
    (calculateMomentumScore [day170]).trend = "starting" ∧
    ∃ n : ℤ, (calculateMomentumScore c4Days).score = some n ∧
      (calculateMomentumScore c4Days).trend =
        (if (n : ℚ) > calculateMomentumScoreForPeriod (c4Days.take 3) + 10
         then "accelerating"
         else if (n : ℚ) > calculateMomentumScoreForPeriod (c4Days.take 3) + 5
         then "growing"
         else if (n : ℚ) ≥ calculateMomentumScoreForPeriod (c4Days.take 3) - 5
         then "steady"
         else "declining") :=
  ⟨C4_trend_amended.1 [day170] (by decide), C4_trend_amended.2 c4Days (by decide)⟩

/-! ## Claim C5 -/

/-- Claim C5 (counterexample): replacing window B's only non-qualifying
day (159 XP at index 3) by a qualifying but wildly unbalanced day of one
million XP drops the composite score from 69 to 41 — the replacement
wrecks the growth and balance factors faster than the consistency factor
rises, so `score(A) ≥ score(B)` fails. -/
theorem C5_monotonicity_counterexample :
    c5DaysA = c5DaysB.set 3 dayBig ∧
    c5DaysB.get? 3 = some day159 ∧
    day159.totalXP < 160 ∧ (160 : ℚ) ≤ dayBig.totalXP ∧
    (calculateMomentumScore c5DaysA).score = some 41 ∧
    (calculateMomentumScore c5DaysB).score = some 69 ∧
    (41 : ℤ) < 69 := by
  refine ⟨rfl, rfl, by with_unfolding_all decide, by with_unfolding_all decide,
    by with_unfolding_all decide, by with_unfolding_all decide, by decide⟩

theorem filter_length_le_set {α : Type} (p : α → Bool) :
    ∀ (l : List α) (j : ℕ) (a dB : α), l.get? j = some dB → p dB = false →
      p a = true → (l.filter p).length ≤ ((l.set j a).filter p).length := by
  intro l
  induction l with
  | nil => intro j a dB h _ _; simp at h
  | cons x xs ih =>
      intro j a dB hget hdB ha
      cases j with
      | zero =>
          have hx : x = dB := by simpa using hget
          subst hx
          simp only [List.set_cons_zero, List.filter_cons, hdB, ha, if_true,
            if_false, List.length_cons]
          exact Nat.le_succ _
      | succ m =>
          simp only [List.set_cons_succ, List.filter_cons]
          by_cases hx : p x = true
          · simp only [hx, if_true, List.length_cons]
            exact Nat.succ_le_succ (ih m a dB (by simpa using hget) hdB ha)
          · simp only [hx, if_false]
            exact ih m a dB (by simpa using hget) hdB ha

/-- Claim C5 (amended): the consistency factor alone is monotone under the
claimed replacement — swapping a non-qualifying day (XP < 160) for a
qualifying one (XP ≥ 160) never decreases `calculateConsistencyScore`.
The full weighted score need not follow (see the counterexample), because
the replacement also moves growth, balance and intensity. -/
theorem C5_consistency_amended :
    ∀ (B : List DayEntry) (j : ℕ) (dA dB : DayEntry),
      B.get? j = some dB → dB.totalXP < 160 → (160 : ℚ) ≤ dA.totalXP →
      calculateConsistencyScore B ≤ calculateConsistencyScore (B.set j dA) := by
  intro B j dA dB hget hlt hge
  have hpB : (fun day : DayEntry => decide ((160 : ℚ) ≤ day.totalXP)) dB = false :=
    decide_eq_false (not_le.mpr hlt)
  have hpA : (fun day : DayEntry => decide ((160 : ℚ) ≤ day.totalXP)) dA = true :=
    decide_eq_true hge
  have hlen := filter_length_le_set
    (fun day : DayEntry => decide ((160 : ℚ) ≤ day.totalXP)) B j dA dB hget hpB hpA
  have hq : ((B.filter (fun day => decide ((160 : ℚ) ≤ day.totalXP))).length : ℚ) ≤
      (((B.set j dA).filter (fun day => decide ((160 : ℚ) ≤ day.totalXP))).length : ℚ) := by
    exact_mod_cast hlen
  unfold calculateConsistencyScore
  linarith

/-- Concrete instantiation of the amended C5 monotonicity. -/
theorem C5_consistency_amended_witness :
    calculateConsistencyScore c5DaysB ≤
      calculateConsistencyScore (c5DaysB.set 3 dayBig) :=
  C5_consistency_amended c5DaysB 3 dayBig day159 rfl
    (by with_unfolding_all decide) (by with_unfolding_all decide)

/-! ## Claim C3 -/

/-- Claim C3 (counterexample): with 5 creation-domain XP, one completed
10-XP `act` task and a cached total of 100, the claim prescribes the entry
`creation = 5 + 10 = 15, totalXP = effectiveXP = 100`; the source builds
`creation = 5` (task XP is never attributed to a domain) and
`totalXP = 15` (the cached total is never consulted). -/
theorem C3_last7_counterexample :
    (getLast7DaysData c3Store 0).get? 0 =
      some { date := 0, totalXP := 15, creation := 5, physical := 0,
             meditation := 0, recovery := 0, alignment := true } ∧
    mkDayEntryClaimed c3Store 0 =
      { date := 0, totalXP := 100, creation := 15, physical := 0,
        meditation := 0, recovery := 0, alignment := true } ∧
    ({ date := 0, totalXP := 15, creation := 5, physical := 0,
       meditation := 0, recovery := 0, alignment := true } : DayEntry) ≠
      { date := 0, totalXP := 100, creation := 15, physical := 0,
        meditation := 0, recovery := 0, alignment := true } := by
  refine ⟨by with_unfolding_all rfl, by with_unfolding_all rfl,
    by with_unfolding_all decide⟩

/-- Claim C3 (amended): `getLast7DaysData` returns 7 entries, most recent
first (entry `i` is day `today − i`); each entry's per-domain value is
that day's domain-activity total alone — completed-task XP is not
attributed to any domain — and its `totalXP` is the sum of the four
domain totals plus completed-task XP, recomputed without consulting the
record's cached `totalXP`. -/
theorem C3_last7_amended :
    ∀ (store : MStore) (today : ℤ) (i : ℕ), i < 7 →
      (getLast7DaysData store today).length = 7 ∧
      ∃ e : DayEntry, (getLast7DaysData store today).get? i = some e ∧
        e.date = today - i ∧
        e.creation = domainTotalOf (getRec store (today - i)) "creation" ∧
        e.physical = domainTotalOf (getRec store (today - i)) "physical" ∧
        e.meditation = domainTotalOf (getRec store (today - i)) "meditation" ∧
        e.recovery = domainTotalOf (getRec store (today - i)) "recovery" ∧
        e.totalXP = e.creation + e.physical + e.meditation + e.recovery +
          completedTaskXP (getRec store (today - i)) ∧
        e.alignment = (getRec store (today - i)).alignment := by
  intro store today i hi
  constructor
  · simp [getLast7DaysData]
  · refine ⟨mkDayEntry store (today - i), ?_, rfl, rfl, rfl, rfl, rfl, rfl, rfl⟩
    unfold getLast7DaysData
    rw [List.get?_map, List.get?_range hi]
    rfl

/-- Instantiation of the amended C3 window shape. -/
theorem C3_last7_amended_witness :
    (getLast7DaysData ([] : MStore) 0).length = 7 :=
  (C3_last7_amended [] 0 0 (by norm_num)).1

/-! ## Claim C10 -/

/-- The three normalized properties of `masteryNormalize` on a parsed
object: `domains` and `tasks` keep any truthy value and are otherwise
defaulted, `alignment` keeps a boolean and is otherwise set to `false`. -/
theorem getProp_masteryNormalize (fields : List (String × JSValue)) :
    getProp (masteryNormalize (JSValue.obj fields)) "domains" =
      (if jsTruthy (lookupK fields "domains") then lookupK fields "domains"
       else some (JSValue.obj [])) ∧
    getProp (masteryNormalize (JSValue.obj fields)) "tasks" =
      (if jsTruthy (lookupK fields "tasks") then lookupK fields "tasks"
       else some (JSValue.arr [] [])) ∧
    getProp (masteryNormalize (JSValue.obj fields)) "alignment" =
      (if jsIsBoolean (lookupK fields "alignment") then
        lookupK fields "alignment"
       else some (JSValue.bool false)) := by
  have edt : ∀ (l : List (String × JSValue)) v,
      lookupK (setK l "domains" v) "tasks" = lookupK l "tasks" :=
    fun l v => lookupK_setK_ne l _ _ v (by decide)
  have eda : ∀ (l : List (String × JSValue)) v,
      lookupK (setK l "domains" v) "alignment" = lookupK l "alignment" :=
    fun l v => lookupK_setK_ne l _ _ v (by decide)
  have etd : ∀ (l : List (String × JSValue)) v,
      lookupK (setK l "tasks" v) "domains" = lookupK l "domains" :=
    fun l v => lookupK_setK_ne l _ _ v (by decide)
  have eta2 : ∀ (l : List (String × JSValue)) v,
      lookupK (setK l "tasks" v) "alignment" = lookupK l "alignment" :=
    fun l v => lookupK_setK_ne l _ _ v (by decide)
  have ead : ∀ (l : List (String × JSValue)) v,
      lookupK (setK l "alignment" v) "domains" = lookupK l "domains" :=
    fun l v => lookupK_setK_ne l _ _ v (by decide)
  have eat : ∀ (l : List (String × JSValue)) v,
      lookupK (setK l "alignment" v) "tasks" = lookupK l "tasks" :=
    fun l v => lookupK_setK_ne l _ _ v (by decide)
  unfold masteryNormalize
  by_cases hd : jsTruthy (lookupK fields "domains") = true <;>
    by_cases ht : jsTruthy (lookupK fields "tasks") = true <;>
      by_cases ha : jsIsBoolean (lookupK fields "alignment") = true <;>
        simp [getProp, setProp, hd, ht, ha, lookupK_setK_self,
          edt, eda, etd, eta2, ead, eat]

/-- Claim C10 (confirmed): `safeLocalStorageGet` normalizes EVERY
`mastery_`-prefixed key whose stored value parses to a JSON object — goal
paths and weekly reviews included, not only day records: a falsy `domains`
is replaced by `{}`, a falsy `tasks` by `[]`, a non-boolean `alignment` by
`false`, and the returned `alignment` is always a boolean.  A stored
`null` under such a key (for which `typeof` is `'object'` but property
access throws) makes the function return the supplied fallback rather
than raise. -/
theorem C10_normalization_confirmed :
    (∀ (key : String) (fields : List (String × JSValue)) (fb : JSValue)
        (store : String → Option JSRaw),
      strStartsWith key "mastery_" = true →
      store key = some (JSRaw.json (JSValue.obj fields)) →
      (jsTruthy (getProp (JSValue.obj fields) "domains") = false →
        getProp (safeLocalStorageGet key fb store) "domains" =
          some (JSValue.obj [])) ∧
      (jsTruthy (getProp (JSValue.obj fields) "tasks") = false →
        getProp (safeLocalStorageGet key fb store) "tasks" =
          some (JSValue.arr [] [])) ∧
      (jsIsBoolean (getProp (JSValue.obj fields) "alignment") = false →
        getProp (safeLocalStorageGet key fb store) "alignment" =
          some (JSValue.bool false)) ∧
      jsIsBoolean (getProp (safeLocalStorageGet key fb store) "alignment") =
        true) ∧
    (∀ (key : String) (fb : JSValue) (store : String → Option JSRaw),
      strStartsWith key "mastery_" = true →
      store key = some (JSRaw.json JSValue.null) →
      safeLocalStorageGet key fb store = fb) := by
  constructor
  · intro key fields fb store hkey hstore
    have hsafe : safeLocalStorageGet key fb store =
        masteryNormalize (JSValue.obj fields) := by
      unfold safeLocalStorageGet
      rw [hstore]
      simp [hkey, jsTypeofIsObject]
    obtain ⟨l1, l2, l3⟩ := getProp_masteryNormalize fields
    rw [hsafe, l1, l2, l3]
    refine ⟨?_, ?_, ?_, ?_⟩
    · intro h
      have h' : jsTruthy (lookupK fields "domains") = false := by
        simpa [getProp] using h
      simp [h']
    · intro h
      have h' : jsTruthy (lookupK fields "tasks") = false := by
        simpa [getProp] using h
      simp [h']
    · intro h
      have h' : jsIsBoolean (lookupK fields "alignment") = false := by
        simpa [getProp] using h
      simp [h']
    · by_cases hb : jsIsBoolean (lookupK fields "alignment") = true
      · rw [if_pos hb]
        exact hb
      · rw [if_neg hb]
        rfl
  · intro key fb store hkey hstore
    unfold safeLocalStorageGet
    rw [hstore]
    simp [hkey, jsTypeofIsObject]

/-- Instantiation of C10 at the non-day-keyed `mastery_goal_path` object
and at a weekly-review key storing `null`. -/
theorem C10_normalization_witness :
    getProp (safeLocalStorageGet "mastery_goal_path" (JSValue.obj []) c10Store)
        "alignment" = some (JSValue.bool false) ∧
    safeLocalStorageGet "mastery_review_2026-01-05" (JSValue.obj [])
      c10NullStore = JSValue.obj [] := by
  constructor
  · exact (C10_normalization_confirmed.1 "mastery_goal_path"
      [("ultimateAim", JSValue.str "lead role")] (JSValue.obj []) c10Store
      (by decide) rfl).2.2.1 (by rfl)
  · exact C10_normalization_confirmed.2 "mastery_review_2026-01-05"
      (JSValue.obj []) c10NullStore (by decide) rfl
